import Mathlib

/-!
Verification of the Test-Royale backend submission-execution and scoring
engine against its specification.

The JavaScript services are shallowly embedded: JS numbers are modeled as
exact rationals (`Rat`), strings as Lean `String` / `List Char`, and every
interaction with the file system, child processes or MongoDB is abstracted
into explicit environment records that carry the outcome of the external
call.  The pure string processing (comment stripping, anchor matching,
output cleaning) is translated literally from the source.
-/

namespace TestRoyale

/-! ## JavaScript number primitives -/

/-- JS `Math.round`: round half toward positive infinity. -/
def jsRound (x : Rat) : Int := Int.floor (x + 1/2)

/-- JS `Number.prototype.toFixed(1)` followed by `parseFloat`:
rounding to one decimal digit, half away from zero for the nonnegative
values that occur here. -/
def toFixed1 (x : Rat) : Rat := (Int.floor (x * 10 + 1/2) : Rat) / 10

/-- JS `Number.prototype.toFixed(2)` followed by reading the string back
as a number (two-decimal rounding). -/
def toFixed2 (x : Rat) : Rat := (Int.floor (x * 100 + 1/2) : Rat) / 100

/-! ## String utilities shared by the embedded services -/

/-- Whitespace as recognized by JS `String.prototype.trim` and `\s`
(the characters that actually occur in tool output). -/
def isJsSpace (c : Char) : Bool :=
  c = ' ' || c = '\t' || c = '\n' || c = '\r' || c = '\x0b' || c = '\x0c'

/-- Remove leading and trailing whitespace from a character list. -/
def trimChars (cs : List Char) : List Char :=
  ((cs.dropWhile isJsSpace).reverse.dropWhile isJsSpace).reverse

/-- JS `String.prototype.trim`. -/
def jsTrim (s : String) : String := String.mk (trimChars s.data)

/-- JS `String.prototype.split` on a single-character separator. -/
def splitOnChar (sep : Char) : List Char → List (List Char)
  | [] => [[]]
  | c :: rest =>
    let r := splitOnChar sep rest
    if c = sep then [] :: r
    else
      match r with
      | [] => [[c]]
      | h :: t => (c :: h) :: t

/-- If `pat` is a leading segment of `cs`, return the remainder. -/
def dropLead? : List Char → List Char → Option (List Char)
  | [], cs => some cs
  | _ :: _, [] => none
  | a :: as, c :: cs => if a = c then dropLead? as cs else none

/-- Scan left to right for the first occurrence of `pat`; return the
characters before it and the characters after it. -/
def scanForSplit (pat : List Char) : List Char → Option (List Char × List Char)
  | [] =>
    match pat with
    | [] => some ([], [])
    | _ :: _ => none
  | c :: rest =>
    match dropLead? pat (c :: rest) with
    | some r => some ([], r)
    | none =>
      match scanForSplit pat rest with
      | some (pre, post) => some (c :: pre, post)
      | none => none

/-- Numeric value of a digit string (the effect of JS `parseInt` on a
`\d+` capture). -/
def decimalValue (cs : List Char) : Nat :=
  cs.foldl (fun a c => a * 10 + (c.toNat - 48)) 0

/-- Decimal digit character. -/
def digitChar (d : Nat) : Char := Char.ofNat (48 + d)

/-- Specification of base-10 rendering (no digits for zero); used to
reason about `natToDecimal`. -/
def natDigits (n : Nat) : List Char :=
  if h : n = 0 then []
  else
    have : n / 10 < n := Nat.div_lt_self (Nat.pos_of_ne_zero h) (by norm_num)
    natDigits (n / 10) ++ [digitChar (n % 10)]
termination_by n

/-- Fuel-driven base-10 rendering (kernel-reducible). -/
def natToDecimalGo : Nat → Nat → List Char → List Char
  | 0, _, acc => acc
  | _ + 1, 0, acc => acc
  | fuel + 1, n + 1, acc =>
    natToDecimalGo fuel ((n + 1) / 10) (digitChar ((n + 1) % 10) :: acc)

/-- Base-10 rendering of a natural number, as produced by the JS template
literal interpolation of `Date.now()`. -/
def natToDecimal (n : Nat) : List Char :=
  if n = 0 then ['0'] else natToDecimalGo n n []

theorem natToDecimalGo_eq (n : Nat) :
    ∀ fuel acc, n ≤ fuel → natToDecimalGo fuel n acc = natDigits n ++ acc := by
  induction n using Nat.strong_induction_on with
  | _ n ih =>
    intro fuel acc hle
    match n, fuel with
    | 0, 0 => simp [natToDecimalGo, natDigits]
    | 0, f + 1 => simp [natToDecimalGo, natDigits]
    | n + 1, f + 1 =>
      have hdiv : (n + 1) / 10 < n + 1 := Nat.div_lt_self (Nat.succ_pos n) (by norm_num)
      have hlef : (n + 1) / 10 ≤ f := by omega
      rw [natToDecimalGo, ih ((n + 1) / 10) hdiv f _ hlef]
      conv_rhs => rw [natDigits]
      simp

theorem decimalValue_append_digit (cs : List Char) (d : Char) :
    decimalValue (cs ++ [d]) = decimalValue cs * 10 + (d.toNat - 48) := by
  simp [decimalValue, List.foldl_append]

theorem digitChar_toNat (d : Nat) (h : d < 10) : (digitChar d).toNat = 48 + d := by
  interval_cases d <;> rfl

theorem decimalValue_natDigits (n : Nat) : decimalValue (natDigits n) = n := by
  induction n using Nat.strong_induction_on with
  | _ n ih =>
    by_cases h : n = 0
    · subst h; simp [natDigits, decimalValue]
    · have hdiv : n / 10 < n := Nat.div_lt_self (Nat.pos_of_ne_zero h) (by norm_num)
      rw [natDigits]
      simp only [h, dite_false]
      rw [decimalValue_append_digit, ih (n / 10) hdiv,
        digitChar_toNat (n % 10) (Nat.mod_lt _ (by norm_num))]
      omega

theorem decimalValue_natToDecimal (n : Nat) : decimalValue (natToDecimal n) = n := by
  by_cases h : n = 0
  · subst h; rfl
  · rw [natToDecimal, if_neg h, natToDecimalGo_eq n n [] (Nat.le_refl n), List.append_nil,
      decimalValue_natDigits]

theorem natToDecimal_injective : Function.Injective natToDecimal := by
  intro a b h
  have := congrArg decimalValue h
  rwa [decimalValue_natToDecimal, decimalValue_natToDecimal] at this

/-- Splitting a list at a separator character not occurring in the two
leading segments is unambiguous. -/
theorem append_sep_inj (sep : Char) :
    ∀ (a c b d : List Char), sep ∉ a → sep ∉ c →
      a ++ sep :: b = c ++ sep :: d → a = c ∧ b = d := by
  intro a
  induction a with
  | nil =>
    intro c b d _ hc h
    cases c with
    | nil => simpa using h
    | cons x xs =>
      simp only [List.nil_append, List.cons_append, List.cons.injEq] at h
      exact absurd (h.1 ▸ List.mem_cons_self x xs) hc
  | cons x xs ih =>
    intro c b d ha hc h
    cases c with
    | nil =>
      simp only [List.cons_append, List.nil_append, List.cons.injEq] at h
      exact absurd (h.1 ▸ List.mem_cons_self x xs) ha
    | cons y ys =>
      simp only [List.cons_append, List.cons.injEq] at h
      obtain ⟨hxy, hrest⟩ := h
      have := ih ys b d (fun hm => ha (List.mem_cons_of_mem x hm))
        (fun hm => hc (hxy ▸ List.mem_cons_of_mem y hm)) hrest
      exact ⟨by rw [hxy, this.1], this.2⟩

/-! ## Comment stripping (CodeService.calculateTestLines) -/

/-- Suffix after the first block-comment close delimiter, if any. -/
def findCloseBlock : List Char → Option (List Char)
  | [] => none
  | '*' :: '/' :: rest => some rest
  | _ :: rest => findCloseBlock rest

/-- Fuel-driven removal of lazily matched block comments, the effect of
the global regex replacement of block comments by the empty string.  An
open delimiter with no later close delimiter is left verbatim (the lazy
pattern fails there, and no later occurrence can close either). -/
def stripBlockCommentsGo : Nat → List Char → List Char
  | 0, cs => cs
  | _ + 1, [] => []
  | fuel + 1, '/' :: '*' :: rest =>
    (match findCloseBlock rest with
     | some rest2 => stripBlockCommentsGo fuel rest2
     | none => '/' :: '*' :: rest)
  | fuel + 1, c :: rest => c :: stripBlockCommentsGo fuel rest

def stripBlockComments (cs : List Char) : List Char := stripBlockCommentsGo cs.length cs

/-- Removal of single-line comments (everything from a double slash to
the end of its line), the effect of the multiline regex replacement. -/
def stripLineCommentsGo : Bool → List Char → List Char
  | _, [] => []
  | false, '/' :: '/' :: rest => stripLineCommentsGo true rest
  | false, c :: rest => c :: stripLineCommentsGo false rest
  | true, '\n' :: rest => '\n' :: stripLineCommentsGo false rest
  | true, _ :: rest => stripLineCommentsGo true rest

structure TestLinesResult where
  success : Bool
  totalTestLines : Nat
  error : Option String := none
deriving DecidableEq

/-- CodeService.calculateTestLines: strip block comments, then line
comments, split into lines, trim each line, and count the lines that are
neither empty nor a lone opening or closing brace. -/
def calculateTestLines (code : String) : TestLinesResult :=
  let cleaned := stripLineCommentsGo false (stripBlockComments code.data)
  let lines := (splitOnChar '\n' cleaned).map trimChars
  let kept := lines.filter (fun l => !l.isEmpty && l != ['{'] && l != ['}'])
  { success := true, totalTestLines := kept.length }

/-! ## Anchor matching for test-run counts -/

/-- Try to match `anchor` followed by optional whitespace and at least
one digit at the head of `cs`; return the digit capture. -/
def matchNumHere (anchor : List Char) (cs : List Char) : Option (List Char) :=
  match dropLead? anchor cs with
  | none => none
  | some r =>
    let ds := (r.dropWhile isJsSpace).takeWhile Char.isDigit
    if ds.isEmpty then none else some ds

/-- First match of the pattern  anchor, optional whitespace, digits  in
`cs` (the regexes extracting the Passed, Failed and Total counts). -/
def matchAnchorDigits (anchor : List Char) : List Char → Option (List Char)
  | [] => none
  | c :: rest =>
    match matchNumHere anchor (c :: rest) with
    | some ds => some ds
    | none => matchAnchorDigits anchor rest

/-- Whether `pat` occurs as a contiguous segment of the list (JS
`String.prototype.includes`). -/
def containsSeg (pat : List Char) : List Char → Bool
  | [] => pat.isEmpty
  | c :: rest => (dropLead? pat (c :: rest)).isSome || containsSeg pat rest

/-! ## Compile-error reduction (CodeService._parseCompileError) -/

/-- Suffix of `cs` strictly after its last colon. -/
def afterLastColon (cs : List Char) : List Char :=
  (cs.reverse.takeWhile (fun c => c ≠ ':')).reverse

/-- Composite effect of the two prefix-stripping regex replacements on an
error line followed by trim: both greedy patterns drop everything through
the last colon they can reach, so together the line is reduced to the
text after its last colon (whitespace eaten by the patterns is subsumed
by the trim). -/
def cleanErrorLine (l : List Char) : List Char :=
  if l.contains ':' then trimChars (afterLastColon l) else trimChars l

def parseCompileErrorLines (lines : List (List Char)) : List (List Char) :=
  lines.foldl
    (fun acc l =>
      if (containsSeg ("error CS".data) l || containsSeg ("error ".data) l) then
        let cleaned := cleanErrorLine l
        if !cleaned.isEmpty && !(acc.contains cleaned) then acc ++ [cleaned] else acc
      else acc) []

/-- CodeService._parseCompileError: keep the message text of at most
three deduplicated error lines, or a fallback hint. -/
def parseCompileError (errorText project : String) : String :=
  let errors := parseCompileErrorLines (splitOnChar '\n' errorText.data)
  if errors.isEmpty then
    "Failed to build " ++ project ++ ". Check your code syntax."
  else
    String.intercalate ("\n") ((errors.take 3).map String.mk)

/-! ## Test-output cleaning (CodeService._parseTestOutput) -/

/-- Noise phrases filtered from raw test output. -/
def linesToSkip : List String :=
  ["Test run for", "test files matched", ".NETCoreApp", "Version=v", ".dll",
   "Starting test execution", "VSTest", "XUnit", "TestPlatform",
   "Logging Vstest", "Logging TestHost", "Results File:", "TestResults",
   ".trx", "/app/temp/", "player_", "Attachments:"]

/-- Matches a leading Windows drive path. -/
def isWindowsPathStart : List Char → Bool
  | c :: ':' :: '\\' :: _ => 'A' ≤ c && c ≤ 'Z'
  | _ => false

/-- Matches a leading Unix absolute path followed by a letter. -/
def isUnixPathStart : List Char → Bool
  | '/' :: c :: _ => c.isAlpha
  | _ => false

/-- Matches a trailing parenthesized duration such as a seconds tag. -/
def endsWithTimeTag (cs : List Char) : Bool :=
  match cs.reverse with
  | ')' :: 's' :: rest =>
    let ds1 := rest.takeWhile Char.isDigit
    let r1 := rest.dropWhile Char.isDigit
    (match r1 with
     | '.' :: r2 =>
       let ds2 := r2.takeWhile Char.isDigit
       let r3 := r2.dropWhile Char.isDigit
       (!ds1.isEmpty) && (!ds2.isEmpty) &&
         (match r3 with
          | '(' :: _ => true
          | _ => false)
     | _ => false)
  | _ => false

def keepOutputLine (line : List Char) : Bool :=
  let trimmed := trimChars line
  if isWindowsPathStart trimmed || isUnixPathStart trimmed
      || containsSeg ("/app/temp/".data) trimmed then false
  else if endsWithTimeTag trimmed && trimmed.contains '/' then false
  else if linesToSkip.any (fun k => containsSeg k.data trimmed) then false
  else if trimmed.isEmpty then false
  else true

/-- CodeService._parseTestOutput: prefer the console output extracted
from the structured results, synthesizing a short summary from the anchor
matches; otherwise filter the raw output line by line. -/
def parseTestOutput (stdout stderr consoleOutput : String) : String :=
  if (jsTrim consoleOutput).length > 0 then
    let passM := matchAnchorDigits ("Passed:".data) stdout.data
    let failM := matchAnchorDigits ("Failed:".data) stdout.data
    let totalM := matchAnchorDigits ("Total:".data) stdout.data
    let summary :=
      (match totalM with
       | some d => ["Total tests: " ++ String.mk d]
       | none => []) ++
      (match passM with
       | some d => ["Passed: " ++ String.mk d]
       | none => []) ++
      (match failM with
       | some d => ["Failed: " ++ String.mk d]
       | none => [])
    String.intercalate ("\n")
      [consoleOutput, "\n--- Test Results ---", String.intercalate ("\n") summary]
  else if stdout = "" || (jsTrim stdout).length = 0 then "No test output captured"
  else
    let cleanedLines :=
      ((splitOnChar '\n' stdout.data).filter keepOutputLine).map
        (fun l => String.mk (trimChars l))
    let cleaned := String.intercalate ("\n") cleanedLines
    if cleaned.length > 0 then cleaned else "No output captured"

/-! ## Structured-results console extraction -/

/-- Single pass removing each standard-output tag occurrence. -/
def stripStdOutTags : Nat → List Char → List Char
  | 0, cs => cs
  | _ + 1, [] => []
  | fuel + 1, c :: rest =>
    (match dropLead? ("</StdOut>".data) (c :: rest) with
     | some r => stripStdOutTags fuel r
     | none =>
       match dropLead? ("<StdOut>".data) (c :: rest) with
       | some r => stripStdOutTags fuel r
       | none => c :: stripStdOutTags fuel rest)

/-- All lazily matched tagged standard-output segments, full match text
including the tags (the global match over the structured results file). -/
def stdOutMatchesGo : Nat → List Char → List (List Char)
  | 0, _ => []
  | fuel + 1, cs =>
    match scanForSplit ("<StdOut>".data) cs with
    | none => []
    | some (_, r) =>
      match scanForSplit ("</StdOut>".data) r with
      | none => []
      | some (inner, rest) =>
        ("<StdOut>".data ++ inner ++ "</StdOut>".data) :: stdOutMatchesGo fuel rest

/-- Console output assembled from a structured results file: each match
with its tags removed and trimmed, empty pieces dropped, joined with
newlines.  `none` models a missing or unreadable results file. -/
def extractConsoleOutput (trxContent : Option String) : String :=
  match trxContent with
  | none => ""
  | some trx =>
    let ms := stdOutMatchesGo trx.data.length trx.data
    let texts := (ms.map (fun m => trimChars (stripStdOutTags m.length m))).filter
      (fun t => !t.isEmpty)
    String.intercalate ("\n") (texts.map String.mk)

/-! ## Scoring formula and workspace paths -/

/-- The weighted composite-score formula applied when storing a player's
pipeline results. -/
def compositeScore (mutationScore branchRate coverageSummary testLines executionTime : Rat) :
    Rat :=
  mutationScore * 0.4 + branchRate * 0.2 + coverageSummary * 0.2 +
    testLines * 0.1 - executionTime * 0.1

/-- Directory name created per submission: the player id joined with the
current millisecond clock reading by underscores. -/
def projectDirName (playerId : String) (nowMs : Nat) : String :=
  "player_" ++ playerId ++ "_" ++ String.mk (natToDecimal nowMs)

def joinPath (a b : String) : String := a ++ "/" ++ b

def projectDirPath (tempRootDir playerId : String) (nowMs : Nat) : String :=
  joinPath tempRootDir (projectDirName playerId nowMs)

/-- One submission attempt: two distinct attempts may well observe the
same millisecond clock value. -/
structure SubmissionAttempt where
  attemptId : Nat
  playerId : String
  nowMs : Nat
deriving DecidableEq

def workspacePath (tempRootDir : String) (a : SubmissionAttempt) : String :=
  projectDirPath tempRootDir a.playerId a.nowMs

/-! ## Coverage artifact parsing (CodeService.generateCoverageReport) -/

/-- Whether `pat` is a trailing segment of `l`. -/
def endsWithSeg (pat l : List Char) : Bool := (dropLead? pat.reverse l.reverse).isSome

/-- JS `parseFloat` on a nonempty capture of digits and dots: leading
digits then an optional fractional part.  A capture without any leading
numeric portion would be NaN in JS and is modeled as zero here; such
captures do not occur in real coverage artifacts. -/
def parseFloatCapture (cs : List Char) : Rat :=
  let intPart := cs.takeWhile Char.isDigit
  let rest := cs.dropWhile Char.isDigit
  let intVal : Rat := (decimalValue intPart : Rat)
  match rest with
  | '.' :: r2 =>
    let frac := r2.takeWhile Char.isDigit
    intVal + (decimalValue frac : Rat) / ((10 : Rat) ^ frac.length)
  | _ => intVal

/-- First match of an attribute literal followed by a nonempty run of
digits and dots closed by a quote; the run is the capture. -/
def matchFloatAttrGo (attrLit : List Char) : Nat → List Char → Option (List Char)
  | 0, _ => none
  | fuel + 1, cs =>
    match scanForSplit attrLit cs with
    | none => none
    | some (_, r) =>
      let run := r.takeWhile (fun c => c.isDigit || c = '.')
      let after := r.dropWhile (fun c => c.isDigit || c = '.')
      if !run.isEmpty && (match after with
         | '"' :: _ => true
         | _ => false) then some run
      else matchFloatAttrGo attrLit fuel r

def matchFloatAttr (attrLit : List Char) (cs : List Char) : Option (List Char) :=
  matchFloatAttrGo attrLit cs.length cs

/-- Match the class-block pattern inside one class tag: a filename
attribute whose value ends with the reference file name, reachable
without crossing the tag close, then the tag close and the lazily
matched class end.  Returns the consumed text from the start of `seg`. -/
def matchClassTagGo : Nat → List Char → Option (List Char)
  | 0, _ => none
  | fuel + 1, seg =>
    match scanForSplit ("filename=\"".data) seg with
    | none => none
    | some (p1, r) =>
      if p1.contains '>' then none
      else
        let value := r.takeWhile (fun c => c ≠ '"')
        match r.dropWhile (fun c => c ≠ '"') with
        | '"' :: rest2 =>
          if endsWithSeg ("BaseCode.cs".data) value then
            match scanForSplit ['>'] rest2 with
            | none => none
            | some (p2, afterGt) =>
              match scanForSplit ("</class>".data) afterGt with
              | none => none
              | some (inner, _) =>
                some (p1 ++ "filename=\"".data ++ value ++ '"' :: p2 ++ '>' :: inner ++
                  "</class>".data)
          else
            match matchClassTagGo fuel (value ++ '"' :: rest2) with
            | some tail => some (p1 ++ "filename=\"".data ++ tail)
            | none => none
        | _ => none

/-- Leftmost match of the class-block pattern for the reference file. -/
def matchClassBlockGo : Nat → List Char → Option (List Char)
  | 0, _ => none
  | fuel + 1, cs =>
    match scanForSplit ("<class".data) cs with
    | none => none
    | some (_, seg) =>
      match matchClassTagGo seg.length seg with
      | some consumed => some ("<class".data ++ consumed)
      | none => matchClassBlockGo fuel seg

def matchClassBlock (cs : List Char) : Option (List Char) := matchClassBlockGo cs.length cs

/-- All matches of the per-line hit pattern: line number and hit count. -/
def lineHitsGo : Nat → List Char → List (Nat × Nat)
  | 0, _ => []
  | fuel + 1, cs =>
    match scanForSplit ("<line number=\"".data) cs with
    | none => []
    | some (_, r) =>
      let ds1 := r.takeWhile Char.isDigit
      let r1 := r.dropWhile Char.isDigit
      match dropLead? ("\" hits=\"".data) r1 with
      | some r2 =>
        let ds2 := r2.takeWhile Char.isDigit
        let r3 := r2.dropWhile Char.isDigit
        if !ds1.isEmpty && !ds2.isEmpty && (match r3 with
           | '"' :: _ => true
           | _ => false) then
          (decimalValue ds1, decimalValue ds2) :: lineHitsGo fuel r
        else lineHitsGo fuel r
      | none => lineHitsGo fuel r

structure LineCov where
  line : Nat
  covered : Bool
  file : String
deriving DecidableEq

structure CoverageResult where
  success : Bool
  lineCoverage : List LineCov
  coverageSummary : Rat
  lineRate : Rat
  branchRate : Rat
  error : Option String := none
deriving DecidableEq

/-- A coverage invocation either returns a result or raises (the catch
handler itself raises a ReferenceError, see `defaultResponseError`). -/
inductive CovOutcome
  | ok (r : CoverageResult)
  | thrown (msg : String)
deriving DecidableEq

/-- Outcome of the external effects of one coverage invocation. -/
structure CoverageEnv where
  playerTestsDirExists : Bool
  baseCodeExists : Bool
  baseCode : String
  testResultsDirExists : Bool
  coverageXml : Option String
  coverageReadable : Bool
deriving DecidableEq

/-- Message of the ReferenceError raised by the catch handler of the
coverage generator, which spreads an identifier that is never defined
anywhere in the service. -/
def defaultResponseError : String := "defaultResponse is not defined"

/-- The per-line array initialized to one uncovered entry per physical
line of the reference file. -/
def initLineCoverage (baseCode : String) : List LineCov :=
  (List.range (splitOnChar '\n' baseCode.data).length).map
    (fun i => { line := i + 1, covered := false, file := "BaseCode.cs" })

/-- CodeService.generateCoverageReport. -/
def generateCoverageReport (env : CoverageEnv) : CovOutcome :=
  if !env.playerTestsDirExists then .thrown defaultResponseError
  else if !env.baseCodeExists then .thrown defaultResponseError
  else
    let totalBaseCodeLines := (splitOnChar '\n' env.baseCode.data).length
    let lineCoverage := initLineCoverage env.baseCode
    if !env.testResultsDirExists then
      .ok { success := true, lineCoverage := lineCoverage, coverageSummary := 0,
            lineRate := 0, branchRate := 0 }
    else
      match env.coverageXml with
      | none =>
        .ok { success := true, lineCoverage := lineCoverage, coverageSummary := 0,
              lineRate := 0, branchRate := 0 }
      | some xml =>
        if !env.coverageReadable then .thrown defaultResponseError
        else
          let lineRate : Rat :=
            match matchFloatAttr ("line-rate=\"".data) xml.data with
            | some cap => parseFloatCapture cap * 100
            | none => 0
          let branchRate : Rat :=
            match matchFloatAttr ("branch-rate=\"".data) xml.data with
            | some cap => parseFloatCapture cap * 100
            | none => 0
          match matchClassBlock xml.data with
          | none =>
            -- here the summary field carries the one-decimal string
            -- rendering of the line rate, coerced back to a number by
            -- the arithmetic downstream
            .ok { success := true, lineCoverage := lineCoverage,
                  coverageSummary := toFixed1 lineRate, lineRate := lineRate,
                  branchRate := branchRate }
          | some block =>
            let hits := lineHitsGo block.length block
            let valid := hits.filter
              (fun p => decide (1 ≤ p.1) && decide (p.1 ≤ totalBaseCodeLines))
            let validLines := valid.length
            let coveredLines := (valid.filter (fun p => decide (p.2 > 0))).length
            let lineCoverage2 := lineCoverage.map
              (fun lc =>
                if valid.any (fun p => p.1 == lc.line && decide (p.2 > 0)) then
                  { lc with covered := true }
                else lc)
            let coverageSummary : Rat :=
              if validLines > 0 then toFixed1 ((coveredLines : Rat) / (validLines : Rat) * 100)
              else 0
            .ok { success := true, lineCoverage := lineCoverage2,
                  coverageSummary := coverageSummary, lineRate := lineRate,
                  branchRate := branchRate }

/-! ## Build-and-test runner (CodeService.compileAndRunCSharpCode) -/

structure RunStats where
  passed : Nat
  failed : Nat
  total : Nat
  executionTime : Rat
deriving DecidableEq

structure RunResult where
  success : Bool
  allTestsPassed : Option Bool := none
  error : Option String := none
  stdout : String := ""
  stderr : String := ""
  stats : RunStats
  projectDir : Option String := none
  playerTestsDir : Option String := none
  executionTime : Option Rat := none
deriving DecidableEq

/-- Outcome of the external effects of one build-and-test invocation. -/
structure RunEnv where
  nowMs : Nat
  restoreOk : Bool
  restoreErrMsg : String
  buildCodeOk : Bool
  buildCodeErrText : String
  buildTestsOk : Bool
  buildTestsErrText : String
  testStdout : String
  testStderr : String
  testExecError : Option String
  trxContent : Option String
  execMillis : Nat
deriving DecidableEq

def failedRunResult (msg : String) : RunResult :=
  { success := false, error := some msg, stdout := "", stderr := msg,
    stats := { passed := 0, failed := 0, total := 0, executionTime := 0 } }

/-- CodeService.compileAndRunCSharpCode: restore, build both projects,
then execute the tests; once the execution callback runs, the result is
marked successful regardless of the failed count and regardless of the
execution error (timeouts included), with `allTestsPassed` tracking
whether every test passed. -/
def compileAndRunCSharpCode (code tests playerId tempRootDir : String) (env : RunEnv) :
    RunResult :=
  if !env.restoreOk then
    failedRunResult ("NuGet Restore Error: " ++ env.restoreErrMsg)
  else if !env.buildCodeOk then
    failedRunResult ("Build Error in PlayerCode: " ++
      parseCompileError env.buildCodeErrText ("PlayerCode"))
  else if !env.buildTestsOk then
    failedRunResult ("Build Error in PlayerTests: " ++
      parseCompileError env.buildTestsErrText ("PlayerTests"))
  else
    let projectDir := projectDirPath tempRootDir playerId env.nowMs
    let output := jsTrim env.testStdout
    let errorOutput := jsTrim env.testStderr
    let passed := ((matchAnchorDigits ("Passed:".data) output.data).map decimalValue).getD 0
    let failed := ((matchAnchorDigits ("Failed:".data) output.data).map decimalValue).getD 0
    let total := ((matchAnchorDigits ("Total:".data) output.data).map decimalValue).getD 0
    let consoleOutput := extractConsoleOutput env.trxContent
    let cleanedOutput := parseTestOutput output errorOutput consoleOutput
    let executionTime : Rat := (env.execMillis : Rat) / 1000
    { success := true
      allTestsPassed := some (failed == 0)
      stdout := cleanedOutput
      stderr := if errorOutput ≠ "" then errorOutput else env.testExecError.getD ""
      stats := { passed := passed, failed := failed, total := total,
                 executionTime := toFixed2 executionTime }
      projectDir := some projectDir
      playerTestsDir := some (joinPath projectDir ("PlayerTests"))
      executionTime := some executionTime }

/-! ## Mutation analysis (CodeService.generateMutationReport) -/

structure StrykerMutant where
  id : String
  mutatorName : Option String
  replacement : Option String
  line : Option Nat
  status : String
deriving DecidableEq

structure StrykerFile where
  language : Option String
  mutants : List StrykerMutant
deriving DecidableEq

structure MutantOut where
  id : String
  mutation : Option String
  originalCode : Option String
  line : Option Nat
  status : String
  fileName : String
deriving DecidableEq

structure MutationSummary where
  totalMutants : Nat
  killed : Nat
  survived : Nat
  timeout : Nat
  noCoverage : Nat
  mutationScore : Rat
deriving DecidableEq

structure MutationResult where
  success : Bool
  error : Option String := none
  mutants : List MutantOut
  summary : MutationSummary
deriving DecidableEq

/-- Outcome of the external effects of one mutation-analysis invocation:
tool availability, solution manipulation, the mutation run, and the
parsed JSON report (`none` models a malformed report). -/
structure MutationEnv where
  toolListOk : Bool
  toolInstallOk : Bool
  installErrMsg : String
  slnNewOk : Bool
  slnAddCodeOk : Bool
  slnAddTestsOk : Bool
  slnErrMsg : String
  strykerRunOk : Bool
  strykerErrMsg : String
  outputDirReadable : Bool
  outputDirErrMsg : String
  timestampedFolders : List String
  reportFound : Bool
  reportJson : Option (List StrykerFile)
  jsonErrMsg : String
deriving DecidableEq

def zeroMutationSummary : MutationSummary :=
  { totalMutants := 0, killed := 0, survived := 0, timeout := 0, noCoverage := 0,
    mutationScore := 0 }

def failedMutationResult (msg : String) : MutationResult :=
  { success := false, error := some msg, mutants := [], summary := zeroMutationSummary }

/-- Message of the TypeError thrown by joining a path with an undefined
segment when the output folder list is empty. -/
def pathUndefinedError : String :=
  "The path argument must be of type string. Received undefined"

/-- CodeService.generateMutationReport: ensure the tool, recreate the
solution, add both projects, run the mutation tool under its long
timeout, locate and parse the JSON report, and aggregate the mutant
statuses; every stage failure is caught and becomes a zeroed report. -/
def generateMutationReport (env : MutationEnv) : MutationResult :=
  if !env.toolListOk && !env.toolInstallOk then failedMutationResult env.installErrMsg
  else if !env.slnNewOk then failedMutationResult env.slnErrMsg
  else if !env.slnAddCodeOk then failedMutationResult env.slnErrMsg
  else if !env.slnAddTestsOk then failedMutationResult env.slnErrMsg
  else if !env.strykerRunOk then failedMutationResult env.strykerErrMsg
  else if !env.outputDirReadable then failedMutationResult env.outputDirErrMsg
  else if env.timestampedFolders.isEmpty then failedMutationResult pathUndefinedError
  else if !env.reportFound then failedMutationResult ("Report file not found")
  else
    match env.reportJson with
    | none => failedMutationResult env.jsonErrMsg
    | some files =>
      let mutants := files.flatMap (fun f =>
        f.mutants.map (fun m =>
          { id := m.id
            mutation := m.mutatorName <|> m.replacement
            originalCode := m.replacement
            line := m.line
            status := m.status
            fileName := f.language.getD ("BaseCode.cs") : MutantOut }))
      let killed := (mutants.filter (fun m => m.status == "Killed")).length
      let survived := (mutants.filter (fun m => m.status == "Survived")).length
      let timeout := (mutants.filter (fun m => m.status == "Timeout")).length
      let noCoverage := (mutants.filter (fun m => m.status == "NoCoverage")).length
      let totalMutants := mutants.length
      let mutationScore : Rat :=
        if totalMutants > 0 then toFixed1 ((killed : Rat) / (totalMutants : Rat) * 100)
        else 0
      { success := true, mutants := mutants,
        summary := { totalMutants := totalMutants, killed := killed, survived := survived,
                     timeout := timeout, noCoverage := noCoverage,
                     mutationScore := mutationScore } }

/-! ## Persistent documents and the in-memory database -/

structure Submission where
  testCode : String := ""
  submittedAtMs : Option Nat := none
  stats : Option RunStats := none
deriving DecidableEq

structure MutationData where
  score : Rat := 0
  total : Nat := 0
  killed : Nat := 0
  survived : Nat := 0
  timeout : Nat := 0
  noCoverage : Nat := 0
  details : List MutantOut := []
deriving DecidableEq

/-- One player's entry in a game session. -/
structure GamePlayer where
  playerId : Nat
  submission : Submission := {}
  submittedAtMs : Option Nat := none
  totalScore : Rat := 0
  branchCoverage : Rat := 0
  lineCoverage : List LineCov := []
  lineRate : Rat := 0
  coverageSummary : Rat := 0
  mutation : MutationData := {}
  badgesEarned : List Nat := []
  testLines : Nat := 0
  executionTime : Rat := 0
  feedback : String := ""
deriving DecidableEq

/-- A game session document, with the challenge reference code already
populated. -/
structure GameDoc where
  gameId : Nat
  roomCode : String
  baseCode : String
  players : List GamePlayer
  gameState : String := "waiting"
  startedAtMs : Nat := 0
  finishedAtMs : Option Nat := none
  winner : Option Nat := none
  totalDuration : Rat := 0
deriving DecidableEq

/-- A player profile document, including the streak fields the service
reads and writes. -/
structure PlayerDoc where
  playerId : Nat
  totalScore : Rat := 0
  totalGamesPlayed : Nat := 0
  totalGamesWon : Nat := 0
  winRate : Rat := 0
  averageScore : Rat := 0
  bestScore : Rat := 0
  badges : List Nat := []
  currentStreak : Nat := 0
  bestStreak : Nat := 0
deriving DecidableEq

/-- The persistence layer: games, players, and the badge collection as a
map from award condition to badge identifier. -/
structure DB where
  games : List GameDoc
  players : List PlayerDoc
  badges : List (String × Nat)
deriving DecidableEq

def findGame (db : DB) (gameId : Nat) : Option GameDoc :=
  db.games.find? (fun g => g.gameId == gameId)

def findPlayerDoc (db : DB) (playerId : Nat) : Option PlayerDoc :=
  db.players.find? (fun p => p.playerId == playerId)

def lookupBadge (db : DB) (condition : String) : Option Nat :=
  (db.badges.find? (fun b => b.1 == condition)).map (fun b => b.2)

/-- Replace the first element satisfying the predicate. -/
def updateFirst (p : α → Bool) (f : α → α) : List α → List α
  | [] => []
  | x :: xs => if p x then f x :: xs else x :: updateFirst p f xs

def saveGame (db : DB) (g : GameDoc) : DB :=
  { db with games := updateFirst (fun g2 => g2.gameId == g.gameId) (fun _ => g) db.games }

def savePlayerDoc (db : DB) (p : PlayerDoc) : DB :=
  { db with
    players := updateFirst (fun q => q.playerId == p.playerId) (fun _ => p) db.players }

/-! ## GameService.calculatePlayerData -/

/-- External-effect outcomes for one full pipeline invocation. -/
structure PipelineEnv where
  run : RunEnv
  cov : CoverageEnv
  mutation : MutationEnv
deriving DecidableEq

structure CalcResult where
  success : Bool
  error : Option String := none
deriving DecidableEq

/-- The temp directory under the process working directory. -/
def tempRoot : String := "temp"

/-- Message of the TypeError raised when the coverage promise rejected,
the local variable stayed undefined, and its success field is then
dereferenced; the outer catch turns it into an error result. -/
def undefinedSuccessError : String :=
  "Cannot read properties of undefined (reading success)"

/-- GameService.calculatePlayerData: run build-and-test, coverage, line
counting and mutation analysis, then store the metric breakdown and the
weighted composite score on the player's entry.  The runner receives the
stored submission; the line counter receives the challenge reference
code, exactly as in the source. -/
def calculatePlayerData (db : DB) (env : PipelineEnv) (gameId playerId : Nat)
    (testCode : String) : CalcResult × DB :=
  match findPlayerDoc db playerId with
  | none => ({ success := false, error := some ("Player not found") }, db)
  | some _ =>
    match findGame db gameId with
    | none => ({ success := false, error := some ("Game not found") }, db)
    | some game =>
      match game.players.find? (fun p => p.playerId == playerId) with
      | none => ({ success := false, error := some ("Player not in this game") }, db)
      | some gamePlayer =>
        let baseCode := game.baseCode
        let runCode := compileAndRunCSharpCode baseCode gamePlayer.submission.testCode
          (String.mk (natToDecimal playerId)) tempRoot env.run
        if !runCode.success then
          ({ success := false, error := runCode.error }, db)
        else
          match generateCoverageReport env.cov with
          | .thrown _ => ({ success := false, error := some undefinedSuccessError }, db)
          | .ok coverageReport =>
            if !coverageReport.success then
              ({ success := false, error := coverageReport.error }, db)
            else
              let testLinesResult := calculateTestLines baseCode
              if !testLinesResult.success then
                ({ success := false, error := testLinesResult.error }, db)
              else
                let mutationReport := generateMutationReport env.mutation
                if !mutationReport.success then
                  ({ success := false, error := mutationReport.error }, db)
                else
                  let executionTime := runCode.executionTime.getD 0
                  let testLines := testLinesResult.totalTestLines
                  let msum := mutationReport.summary
                  let newPlayer := { gamePlayer with
                    submission := { gamePlayer.submission with
                      testCode := testCode
                      stats := some runCode.stats
                      submittedAtMs := some env.run.nowMs }
                    totalScore := compositeScore msum.mutationScore
                      coverageReport.branchRate coverageReport.coverageSummary
                      (testLines : Rat) executionTime
                    lineCoverage := coverageReport.lineCoverage
                    lineRate := coverageReport.lineRate
                    branchCoverage := coverageReport.branchRate
                    coverageSummary := coverageReport.coverageSummary
                    mutation := { score := msum.mutationScore, total := msum.totalMutants,
                                  killed := msum.killed, survived := msum.survived,
                                  timeout := msum.timeout, noCoverage := msum.noCoverage,
                                  details := mutationReport.mutants }
                    testLines := testLines
                    executionTime := executionTime }
                  let game2 := { game with
                    players := updateFirst (fun p => p.playerId == playerId)
                      (fun _ => newPlayer) game.players }
                  ({ success := true }, saveGame db game2)

/-! ## GameService.startGame and submitTestCode -/

structure Challenge where
  challengeId : Nat
  baseCode : String
deriving DecidableEq

structure RoomPlayer where
  playerId : Nat
  isReady : Bool
deriving DecidableEq

structure RoomDoc where
  code : String
  hostId : Nat
  players : List RoomPlayer
  gameState : String
deriving DecidableEq

/-- External-effect outcomes for one startGame call: the room the player
is in, the randomly drawn challenge, the new document id, the clock, and
whether the room-state update succeeds. -/
structure StartEnv where
  playerRoom : Option RoomDoc
  challenge : Option Challenge
  newGameId : Nat
  nowMs : Nat
  roomUpdateOk : Bool
deriving DecidableEq

structure StartResult where
  success : Bool
  error : Option String := none
deriving DecidableEq

/-- GameService.startGame: guards, then creation of a playing game with
one empty entry per room player.  `active` is the in-memory active-games
key set (keyed by game id on insertion, checked by room code). -/
def startGame (db : DB) (active : List String) (env : StartEnv) (playerId : Nat) :
    StartResult × DB × List String :=
  match findPlayerDoc db playerId with
  | none => ({ success := false, error := some ("Player not found") }, db, active)
  | some _ =>
    match env.playerRoom with
    | none => ({ success := false, error := some ("Room not found") }, db, active)
    | some room =>
      if room.gameState != "waiting" then
        ({ success := false, error := some ("Game already started or finished") }, db, active)
      else if room.players.length < 2 then
        ({ success := false, error := some ("Need at least 2 players to start game") },
         db, active)
      else if active.contains room.code then
        ({ success := false, error := some ("Game already started in this room") }, db, active)
      else
        match env.challenge with
        | none => ({ success := false, error := some ("Code challenge not found") }, db, active)
        | some challenge =>
          if !(room.players.all (fun p => p.isReady)) then
            ({ success := false, error := some ("Not all players are ready") }, db, active)
          else
            let game : GameDoc :=
              { gameId := env.newGameId
                roomCode := room.code
                baseCode := challenge.baseCode
                players := room.players.map (fun p => { playerId := p.playerId })
                gameState := "playing"
                startedAtMs := env.nowMs }
            let db2 := { db with games := db.games ++ [game] }
            if !env.roomUpdateOk then
              ({ success := false, error := some ("Room update failed") }, db2, active)
            else
              ({ success := true }, db2,
               active ++ [String.mk (natToDecimal env.newGameId)])

structure SubmitResult where
  success : Bool
  error : Option String := none
  message : Option String := none
deriving DecidableEq

/-- GameService.submitTestCode: record the submitted code and the
submission timestamp on the player's entry; scoring is not triggered. -/
def submitTestCode (db : DB) (nowMs : Nat) (gameId playerId : Nat) (testCode : String) :
    SubmitResult × DB :=
  match findGame db gameId with
  | none => ({ success := false, error := some ("Game not found") }, db)
  | some game =>
    match findPlayerDoc db playerId with
    | none => ({ success := false, error := some ("Player not found") }, db)
    | some _ =>
      if game.gameState != "playing" then
        ({ success := false, error := some ("Game is not active") }, db)
      else if testCode == "" then
        ({ success := false, error := some ("No test code submitted") }, db)
      else
        match game.players.find? (fun p => p.playerId == playerId) with
        | none =>
          ({ success := false,
             error :=
               some ("Player not part of this game. Please join before submitting code.") },
           db)
        | some _ =>
          let game2 := { game with
            players := updateFirst (fun p => p.playerId == playerId)
              (fun p => { p with
                submission := { p.submission with testCode := testCode }
                submittedAtMs := some nowMs }) game.players }
          ({ success := true, message := some ("Test code submitted successfully") },
           saveGame db game2)

/-! ## GameService.endGame -/

/-- Observable milestones of one endGame call, in execution order. -/
inductive EndEvent
  | autoCalc (playerId : Nat)
  | markFinished
deriving DecidableEq

structure EndResult where
  success : Bool
  error : Option String := none
  message : Option String := none
deriving DecidableEq

/-- The auto-completion trigger: an entry with a non-empty submission
whose mutation score or line rate is missing or zero (JS falsiness on
the stored numbers, which default to zero). -/
def autoCalcTrigger (gp : GamePlayer) : Bool :=
  (decide (gp.mutation.score = 0) || decide (gp.lineRate = 0) ||
    decide (gp.submission.testCode = "")) && !(decide (gp.submission.testCode = ""))

/-- Stable insertion keeping strictly greater scores in front, matching
the stable sort by descending total score. -/
def insertScoreDesc (x : Nat × Rat) : List (Nat × Rat) → List (Nat × Rat)
  | [] => [x]
  | y :: ys => if x.2 ≥ y.2 then x :: y :: ys else y :: insertScoreDesc x ys

def sortScoresDesc : List (Nat × Rat) → List (Nat × Rat)
  | [] => []
  | x :: xs => insertScoreDesc x (sortScoresDesc xs)

/-- Award one badge by condition if it exists and the entry does not
already hold it, accumulating the badge id and the feedback text. -/
def pushBadge (db : DB) (gp : GamePlayer) (acc : List Nat × String)
    (condition text : String) : List Nat × String :=
  match lookupBadge db condition with
  | some bid =>
    if !(gp.badgesEarned.contains bid) then (acc.1 ++ [bid], acc.2 ++ text)
    else acc
  | none => acc

/-- The badge-award pass over one entry: mutation slayer, the exclusive
coverage tier chain, the execution-time badge, and placement badges from
the descending ranking. -/
def awardBadges (db : DB) (sorted : List (Nat × Rat)) (gp : GamePlayer) : GamePlayer :=
  let acc0 : List Nat × String := ([], "")
  let acc1 :=
    if gp.mutation.score ≥ 80 then
      pushBadge db gp acc0 ("mutation_slayer")
        ("\n🎖️ Mutation Slayer: Killed ≥80% of mutants!")
    else acc0
  let lineRate := gp.lineRate
  let acc2 :=
    if lineRate = 100 then
      pushBadge db gp acc1 ("coverage_platinum")
        ("\n⭐ Coverage Platinum: 100% code coverage!")
    else if lineRate ≥ 90 then
      pushBadge db gp acc1 ("coverage_gold") ("\n🥇 Coverage Gold: ≥90% code coverage!")
    else if lineRate ≥ 80 then
      pushBadge db gp acc1 ("coverage_silver") ("\n🥈 Coverage Silver: ≥80% code coverage!")
    else if lineRate ≥ 70 then
      pushBadge db gp acc1 ("coverage_bronze") ("\n🥉 Coverage Bronze: ≥70% code coverage!")
    else acc1
  let acc3 :=
    if gp.executionTime > 0 ∧ gp.executionTime < 5 then
      pushBadge db gp acc2 ("lightning_tester")
        ("\n⚡ Lightning Tester: Executed in < 5 seconds!")
    else acc2
  let ranking :=
    match sorted.findIdx? (fun p => p.1 == gp.playerId) with
    | some i => i + 1
    | none => 0
  let acc4 :=
    if ranking = 1 then
      pushBadge db gp acc3 ("first_place") ("\n🏆 First Place: Highest score in this game!")
    else if ranking = 2 then
      pushBadge db gp acc3 ("second_place") ("\n🥈 Second Place: Great effort!")
    else acc3
  { gp with badgesEarned := gp.badgesEarned ++ acc4.1, feedback := gp.feedback ++ acc4.2 }

/-- Fold one finished entry into the player's long-term profile: games
played, accumulated and average score, best score, win bookkeeping
against the stored winner, and badge accumulation. -/
def updatePlayerStatsDoc (db : DB) (game : GameDoc) (gp : GamePlayer) : DB :=
  match findPlayerDoc db gp.playerId with
  | none => db
  | some pd =>
    let played := pd.totalGamesPlayed + 1
    let tscore := pd.totalScore + gp.totalScore
    let isWinner :=
      match game.winner with
      | some w => w == gp.playerId
      | none => false
    let won := if isWinner then pd.totalGamesWon + 1 else pd.totalGamesWon
    let streak := if isWinner then pd.currentStreak + 1 else 0
    let best := if isWinner then max pd.bestStreak (pd.currentStreak + 1) else pd.bestStreak
    let pd2 := { pd with
      totalGamesPlayed := played
      totalScore := tscore
      totalGamesWon := won
      currentStreak := streak
      bestStreak := best
      averageScore := (jsRound (tscore / (played : Rat)) : Rat)
      bestScore := max pd.bestScore gp.totalScore
      winRate := (jsRound ((won : Rat) / (played : Rat) * 100) : Rat)
      badges := gp.badgesEarned.foldl
        (fun bs bid => if bs.contains bid then bs else bs ++ [bid]) pd.badges }
    savePlayerDoc db pd2

/-- One step of the auto-completion loop: an entry satisfying the
trigger gets a pipeline invocation on the caller's behalf, recorded in
the event list. -/
def autoCalcStep (envOf : Nat → PipelineEnv) (gameId : Nat) (acc : DB × List EndEvent)
    (gp : GamePlayer) : DB × List EndEvent :=
  if autoCalcTrigger gp then
    let r := calculatePlayerData acc.1 (envOf gp.playerId) gameId gp.playerId
      gp.submission.testCode
    (r.2, acc.2 ++ [EndEvent.autoCalc gp.playerId])
  else acc

/-- GameService.endGame: auto-complete incomplete entries through the
pipeline, recompute the ranking, award badges, mark the session
finished with its duration, and fold every entry into the long-term
player profiles.  The winner field is never assigned and the finish
timestamp field is never assigned, exactly as in the source; the room
deletion and the in-memory handle release have no effect on the modeled
state.  The event list records the auto-completion calls and the moment
the session is marked finished, in execution order. -/
def endGame (db : DB) (envOf : Nat → PipelineEnv) (nowMs : Nat) (gameId : Nat) :
    EndResult × DB × List EndEvent :=
  match findGame db gameId with
  | none => ({ success := false, error := some ("Game not found") }, db, [])
  | some game =>
    if game.gameState == "finished" then
      ({ success := true, error := some ("Game already finished") }, db, [])
    else
      let autoPass := game.players.foldl (autoCalcStep envOf gameId) (db, [])
      let db1 := autoPass.1
      let events := autoPass.2
      match findGame db1 gameId with
      | none =>
        ({ success := false, error := some ("Game not found after calculation") }, db1, events)
      | some updatedGame =>
        let gameDuration : Rat :=
          (jsRound (((nowMs : Rat) - (updatedGame.startedAtMs : Rat)) / 1000) : Rat)
        let playerScores := updatedGame.players.map (fun p => (p.playerId, p.totalScore))
        let sorted := sortScoresDesc playerScores
        let players2 := updatedGame.players.map (fun gp => awardBadges db1 sorted gp)
        let finishedGame := { updatedGame with
          gameState := "finished", players := players2, totalDuration := gameDuration }
        let db2 := saveGame db1 finishedGame
        let events2 := events ++ [EndEvent.markFinished]
        let db3 := finishedGame.players.foldl
          (fun dacc gp => updatePlayerStatsDoc dacc finishedGame gp) db2
        ({ success := true, message := some ("Game ended successfully") }, db3, events2)

/-! ## Accessors and helper lemmas used by the verification statements -/

attribute [local semireducible] Rat.add Rat.sub Rat.mul Rat.inv Rat.ofScientific

def covResultOf : CovOutcome → Option CoverageResult
  | .ok r => some r
  | .thrown _ => none

/-- The entry stored for a player in a game, as persisted. -/
def storedPlayer (db : DB) (gameId playerId : Nat) : Option GamePlayer :=
  (findGame db gameId).bind (fun g => g.players.find? (fun p => p.playerId == playerId))

theorem find?_updateFirst {α} (p q : α → Bool) (f : α → α) (l : List α) (x : α)
    (hpq : ∀ a, p a = q a) (hx : l.find? q = some x) (hf : q (f x) = true) :
    (updateFirst p f l).find? q = some (f x) := by
  induction l with
  | nil => simp at hx
  | cons y ys ih =>
    by_cases hy : q y = true
    · rw [List.find?_cons_of_pos _ hy] at hx
      injection hx with hx
      subst hx
      rw [updateFirst, if_pos (by rw [hpq]; exact hy), List.find?_cons_of_pos _ hf]
    · have hy2 : q y = false := by
        cases h2 : q y
        · rfl
        · exact absurd h2 hy
      rw [List.find?_cons_of_neg _ (by simp [hy2])] at hx
      rw [updateFirst, if_neg (by rw [hpq]; simp [hy2]),
        List.find?_cons_of_neg _ (by simp [hy2])]
      exact ih hx

theorem storedPlayer_saveGame {db : DB} {gameId playerId : Nat} {g : GameDoc}
    {gp np : GamePlayer}
    (hg : findGame db gameId = some g)
    (hgid : (g.gameId == gameId) = true)
    (hgp : g.players.find? (fun p => p.playerId == playerId) = some gp)
    (hnp : (np.playerId == playerId) = true) :
    storedPlayer
      (saveGame db
        { g with
          players := updateFirst (fun p => p.playerId == playerId) (fun _ => np)
                       g.players })
      gameId playerId = some np := by
  have hge : g.gameId = gameId := by simpa using hgid
  unfold findGame at hg
  unfold storedPlayer saveGame findGame
  rw [find?_updateFirst _ (fun a => a.gameId == gameId)
    _ db.games g (fun a => by show (a.gameId == g.gameId) = (a.gameId == gameId); rw [hge])
    hg (by show (g.gameId == gameId) = true; rw [hge]; simp)]
  show (updateFirst (fun p => p.playerId == playerId) (fun _ => np) g.players).find?
    (fun p => p.playerId == playerId) = some np
  rw [find?_updateFirst _ _ _ _ _ (fun a => rfl) hgp hnp]

theorem updatePlayerStatsDoc_games (db : DB) (g : GameDoc) (gp : GamePlayer) :
    (updatePlayerStatsDoc db g gp).games = db.games := by
  unfold updatePlayerStatsDoc
  cases findPlayerDoc db gp.playerId <;> simp [savePlayerDoc]

theorem foldl_updateStats_games (g : GameDoc) (l : List GamePlayer) (db : DB) :
    (l.foldl (fun d gp => updatePlayerStatsDoc d g gp) db).games = db.games := by
  induction l generalizing db with
  | nil => rfl
  | cons x xs ih => rw [List.foldl_cons, ih, updatePlayerStatsDoc_games]

theorem foldl_autoCalc_no_trigger (envOf : Nat → PipelineEnv) (gameId : Nat)
    (l : List GamePlayer) (db : DB) (evs : List EndEvent)
    (h : ∀ gp ∈ l, autoCalcTrigger gp = false) :
    l.foldl (autoCalcStep envOf gameId) (db, evs) = (db, evs) := by
  induction l generalizing db evs with
  | nil => rfl
  | cons x xs ih =>
    rw [List.foldl_cons,
      show autoCalcStep envOf gameId (db, evs) x = (db, evs) by
        simp [autoCalcStep, h x (List.mem_cons_self x xs)]]
    exact ih _ _ (fun gp hm => h gp (List.mem_cons_of_mem x hm))

theorem foldl_autoCalc_events_mono (envOf : Nat → PipelineEnv) (gameId : Nat)
    (l : List GamePlayer) (db : DB) (evs : List EndEvent) (e : EndEvent) (he : e ∈ evs) :
    e ∈ (l.foldl (autoCalcStep envOf gameId) (db, evs)).2 := by
  induction l generalizing db evs with
  | nil => exact he
  | cons x xs ih =>
    rw [List.foldl_cons]
    unfold autoCalcStep
    by_cases ht : autoCalcTrigger x = true
    · simp only [ht, if_true]
      exact ih _ _ (List.mem_append_left _ he)
    · simp only [Bool.not_eq_true] at ht
      simp only [ht, Bool.false_eq_true, if_false]
      exact ih _ _ he

theorem foldl_autoCalc_mem (envOf : Nat → PipelineEnv) (gameId : Nat)
    (l : List GamePlayer) (db : DB) (evs : List EndEvent) (gp : GamePlayer)
    (hmem : gp ∈ l) (htr : autoCalcTrigger gp = true) :
    EndEvent.autoCalc gp.playerId ∈ (l.foldl (autoCalcStep envOf gameId) (db, evs)).2 := by
  induction l generalizing db evs with
  | nil => simp at hmem
  | cons x xs ih =>
    rw [List.foldl_cons]
    rcases List.mem_cons.mp hmem with rfl | hxs
    · unfold autoCalcStep
      simp only [htr, if_true]
      exact foldl_autoCalc_events_mono envOf gameId xs _ _ _ (by simp)
    · unfold autoCalcStep
      by_cases ht : autoCalcTrigger x = true
      · simp only [ht, if_true]
        exact ih _ _ hxs
      · simp only [Bool.not_eq_true] at ht
        simp only [ht, Bool.false_eq_true, if_false]
        exact ih _ _ hxs

/-! ## Shared concrete scenarios -/

/-- A fully successful build-and-test environment. -/
def runEnvAllOk : RunEnv :=
  { nowMs := 1764065304158, restoreOk := true, restoreErrMsg := "",
    buildCodeOk := true, buildCodeErrText := "", buildTestsOk := true,
    buildTestsErrText := "",
    testStdout := "Passed: 3\nFailed: 0\nTotal: 3", testStderr := "",
    testExecError := none, trxContent := none, execMillis := 2000 }

/-- A coverage environment in which the run produced no artifact. -/
def covEnvNoArtifact : CoverageEnv :=
  { playerTestsDirExists := true, baseCodeExists := true,
    baseCode := "int x = 1;\n// note\n", testResultsDirExists := false,
    coverageXml := none, coverageReadable := true }

/-- A mutation environment in which everything works and the report
holds no mutant. -/
def mutEnvEmptyReport : MutationEnv :=
  { toolListOk := true, toolInstallOk := true, installErrMsg := "",
    slnNewOk := true, slnAddCodeOk := true, slnAddTestsOk := true, slnErrMsg := "",
    strykerRunOk := true, strykerErrMsg := "",
    outputDirReadable := true, outputDirErrMsg := "",
    timestampedFolders := ["2025-11-25.12-34-56"], reportFound := true,
    reportJson := some [], jsonErrMsg := "" }

/-! ## C10: workspace path uniqueness -/

/-- C10 (counterexample): the workspace naming does not separate any two
concurrent submissions — two distinct attempts by the same player that
observe the same millisecond clock value receive equal workspace root
paths, so the paths are not never-equal as claimed. -/
theorem workspace_path_collision :
    (⟨0, "692446a022ce941a3f0cc933", 1764065304158⟩ : SubmissionAttempt) ≠
      ⟨1, "692446a022ce941a3f0cc933", 1764065304158⟩ ∧
    workspacePath tempRoot ⟨0, "692446a022ce941a3f0cc933", 1764065304158⟩ =
      workspacePath tempRoot ⟨1, "692446a022ce941a3f0cc933", 1764065304158⟩ :=
  ⟨by decide, rfl⟩

/-- C10 (amended): two workspace directory names coincide exactly when
both the player id and the millisecond timestamp coincide; since object
ids contain no underscore, submissions of distinct players, or of the
same player at distinct milliseconds, get distinct workspaces, while two
submissions of one player in the same millisecond collide. -/
theorem workspace_path_characterization (p1 p2 : String) (t1 t2 : Nat)
    (h1 : '_' ∉ p1.data) (h2 : '_' ∉ p2.data) :
    projectDirName p1 t1 = projectDirName p2 t2 ↔ p1 = p2 ∧ t1 = t2 := by
  constructor
  · intro h
    have hd := congrArg String.data h
    simp only [projectDirName, String.data_append, List.append_assoc] at hd
    have hd2 : p1.data ++ '_' :: (natToDecimal t1) = p2.data ++ '_' :: (natToDecimal t2) := by
      have := List.append_cancel_left hd
      simpa using this
    obtain ⟨hp, ht⟩ := append_sep_inj '_' p1.data p2.data _ _ h1 h2 hd2
    refine ⟨?_, natToDecimal_injective ht⟩
    cases p1
    cases p2
    exact congrArg String.mk hp
  · rintro ⟨rfl, rfl⟩
    rfl

/-- C10 (witness). -/
theorem workspace_path_characterization_witness :
    ('_' ∉ "a1b".data) ∧ ('_' ∉ "c2d".data) ∧
      (projectDirName "a1b" 55 = projectDirName "c2d" 55 ↔ "a1b" = "c2d" ∧ 55 = 55) :=
  ⟨by decide, by decide,
    workspace_path_characterization "a1b" "c2d" 55 55 (by decide) (by decide)⟩

/-! ## C8: mutation score computation -/

/-- C8 (counterexample): with three mutants of which one is killed, the
stored mutation score is the one-decimal rounding of the ratio, not the
exact value of killed over total times one hundred. -/
theorem mutation_score_rounded_cex :
    ((generateMutationReport { mutEnvEmptyReport with
        reportJson := some [{ language := none, mutants := [
          { id := "1", mutatorName := some "Arithmetic", replacement := none,
            line := some 3, status := "Killed" },
          { id := "2", mutatorName := some "Arithmetic", replacement := none,
            line := some 4, status := "Survived" },
          { id := "3", mutatorName := some "Arithmetic", replacement := none,
            line := some 5, status := "Survived" }] }] }).summary.mutationScore = 333/10) ∧
    ((333 : Rat)/10 ≠ (1 : Rat) / 3 * 100) ∧
    ((generateMutationReport { mutEnvEmptyReport with
        reportJson := some [{ language := none, mutants := [
          { id := "1", mutatorName := some "Arithmetic", replacement := none,
            line := some 3, status := "Killed" },
          { id := "2", mutatorName := some "Arithmetic", replacement := none,
            line := some 4, status := "Survived" },
          { id := "3", mutatorName := some "Arithmetic", replacement := none,
            line := some 5, status := "Survived" }] }] }).summary.killed = 1) ∧
    ((generateMutationReport { mutEnvEmptyReport with
        reportJson := some [{ language := none, mutants := [
          { id := "1", mutatorName := some "Arithmetic", replacement := none,
            line := some 3, status := "Killed" },
          { id := "2", mutatorName := some "Arithmetic", replacement := none,
            line := some 4, status := "Survived" },
          { id := "3", mutatorName := some "Arithmetic", replacement := none,
            line := some 5, status := "Survived" }] }] }).summary.totalMutants = 3) := by
  refine ⟨by decide, by decide, by decide, by decide⟩

/-- A mutation-analysis invocation in which some stage fails: the tool
is unavailable and cannot be installed, a solution step fails, the run
fails or times out, the output cannot be listed, no output folder or
report file exists, or the report does not parse. -/
def mutationStageFails (env : MutationEnv) : Bool :=
  (!env.toolListOk && !env.toolInstallOk) || !env.slnNewOk || !env.slnAddCodeOk ||
    !env.slnAddTestsOk || !env.strykerRunOk || !env.outputDirReadable ||
    env.timestampedFolders.isEmpty || !env.reportFound || env.reportJson.isNone

set_option maxHeartbeats 1000000 in
theorem gen_mut_fail_exists (env : MutationEnv) (h : mutationStageFails env = true) :
    ∃ msg, generateMutationReport env = failedMutationResult msg := by
  unfold generateMutationReport
  split_ifs with h1 h2 h3 h4 h5 h6 h7 h8
  · exact ⟨_, rfl⟩
  · exact ⟨_, rfl⟩
  · exact ⟨_, rfl⟩
  · exact ⟨_, rfl⟩
  · exact ⟨_, rfl⟩
  · exact ⟨_, rfl⟩
  · exact ⟨_, rfl⟩
  · exact ⟨_, rfl⟩
  · rcases hj : env.reportJson with _ | files
    · simp only [hj]
      exact ⟨_, rfl⟩
    · exfalso
      unfold mutationStageFails at h
      simp only [hj] at h
      simp_all

set_option maxHeartbeats 1000000 in
theorem gen_mut_success_flags (env : MutationEnv) (h : mutationStageFails env = false)
    (files : List StrykerFile) (hj : env.reportJson = some files) :
    generateMutationReport env = (
      let mutants := files.flatMap (fun f =>
        f.mutants.map (fun m =>
          { id := m.id
            mutation := m.mutatorName <|> m.replacement
            originalCode := m.replacement
            line := m.line
            status := m.status
            fileName := f.language.getD ("BaseCode.cs") : MutantOut }))
      let killed := (mutants.filter (fun m => m.status == "Killed")).length
      let survived := (mutants.filter (fun m => m.status == "Survived")).length
      let timeout := (mutants.filter (fun m => m.status == "Timeout")).length
      let noCoverage := (mutants.filter (fun m => m.status == "NoCoverage")).length
      let totalMutants := mutants.length
      let mutationScore : Rat :=
        if totalMutants > 0 then toFixed1 ((killed : Rat) / (totalMutants : Rat) * 100)
        else 0
      { success := true, mutants := mutants,
        summary := { totalMutants := totalMutants, killed := killed, survived := survived,
                     timeout := timeout, noCoverage := noCoverage,
                     mutationScore := mutationScore } }) := by
  unfold mutationStageFails at h
  simp only [Bool.or_eq_false_iff] at h
  obtain ⟨⟨⟨⟨⟨⟨⟨⟨htool, hnew⟩, hac⟩, hat⟩, hrun⟩, hdir⟩, hfold⟩, hrf⟩, -⟩ := h
  unfold generateMutationReport
  simp [htool, hnew, hac, hat, hrun, hdir, hrf, hfold, hj]

/-- C8 (amended): on success the stored mutation score is the
one-decimal rounding of killed over total times one hundred when total
is positive, and zero when there is no mutant (the division is guarded). -/
theorem mutation_score_formula (env : MutationEnv)
    (h : (generateMutationReport env).success = true) :
    (generateMutationReport env).summary.mutationScore =
      (if (generateMutationReport env).summary.totalMutants = 0 then 0
       else toFixed1 (((generateMutationReport env).summary.killed : Rat) /
         ((generateMutationReport env).summary.totalMutants : Rat) * 100)) := by
  cases hf : mutationStageFails env
  · have hjs : env.reportJson.isNone = false := by
      unfold mutationStageFails at hf
      simp only [Bool.or_eq_false_iff] at hf
      obtain ⟨-, hjs⟩ := hf
      exact hjs
    rcases hj : env.reportJson with _ | files
    · rw [hj] at hjs
      simp at hjs
    · rw [gen_mut_success_flags env hf files hj]
      simp only []
      split_ifs with hz hp
      · omega
      · rfl
      · rfl
      · omega
  · obtain ⟨msg, hm⟩ := gen_mut_fail_exists env hf
    rw [hm] at h
    simp [failedMutationResult] at h

/-- C8 (witness): the guarded zero case, applied to the environment with
an empty report. -/
theorem mutation_score_formula_witness :
    (generateMutationReport mutEnvEmptyReport).success = true ∧
    (generateMutationReport mutEnvEmptyReport).summary.mutationScore =
      (if (generateMutationReport mutEnvEmptyReport).summary.totalMutants = 0 then 0
       else toFixed1 (((generateMutationReport mutEnvEmptyReport).summary.killed : Rat) /
         ((generateMutationReport mutEnvEmptyReport).summary.totalMutants : Rat) * 100)) :=
  ⟨by decide, mutation_score_formula mutEnvEmptyReport (by decide)⟩

/-! ## C9: mutation failure degrades to a zeroed report -/

/-- C9: whenever any stage of the mutation analysis fails, the result is
a zeroed report — empty mutant list, all counts and score zero — with
success false and an error string; the embedding is a total function, so
no failure escapes as an exception. -/
theorem mutation_failure_zeroed (env : MutationEnv) (h : mutationStageFails env = true) :
    (generateMutationReport env).success = false ∧
    (generateMutationReport env).error.isSome = true ∧
    (generateMutationReport env).mutants = [] ∧
    (generateMutationReport env).summary = zeroMutationSummary := by
  obtain ⟨msg, hm⟩ := gen_mut_fail_exists env h
  rw [hm]
  simp [failedMutationResult]

/-- C9 (witness): a run whose report file is missing. -/
theorem mutation_failure_zeroed_witness :
    mutationStageFails { mutEnvEmptyReport with reportFound := false } = true ∧
    ((generateMutationReport { mutEnvEmptyReport with reportFound := false }).success = false ∧
     (generateMutationReport { mutEnvEmptyReport with reportFound := false }).error.isSome = true ∧
     (generateMutationReport { mutEnvEmptyReport with reportFound := false }).mutants = [] ∧
     (generateMutationReport { mutEnvEmptyReport with reportFound := false }).summary =
       zeroMutationSummary) :=
  ⟨by decide, mutation_failure_zeroed _ (by decide)⟩

/-! ## C4: coverage degrade behavior -/

/-- No coverage artifact, two-line reference file. -/
def covEnvTwoLines : CoverageEnv :=
  { playerTestsDirExists := true, baseCodeExists := true,
    baseCode := "public class C\nx", testResultsDirExists := false,
    coverageXml := none, coverageReadable := true }

/-- The test project directory is gone. -/
def covEnvMissingDir : CoverageEnv :=
  { playerTestsDirExists := false, baseCodeExists := true, baseCode := "",
    testResultsDirExists := false, coverageXml := none, coverageReadable := true }

/-- The two uncovered per-line entries of a two-line reference file. -/
def twoUncoveredLines : List LineCov :=
  [{ line := 1, covered := false, file := "BaseCode.cs" },
   { line := 2, covered := false, file := "BaseCode.cs" }]

/-- C4 (counterexample): when no coverage artifact exists the report is
a success with zero rates, but the per-line list is not empty — it holds
one uncovered entry per reference-file line; and the analyzer is not
throw-free: with a missing directory its catch handler raises a
ReferenceError on the identifier it spreads, which is never defined. -/
theorem coverage_degrade_cex :
    generateCoverageReport covEnvTwoLines =
      CovOutcome.ok { success := true, lineCoverage := twoUncoveredLines,
                      coverageSummary := 0, lineRate := 0, branchRate := 0 } ∧
    twoUncoveredLines ≠ [] ∧
    generateCoverageReport covEnvMissingDir = CovOutcome.thrown defaultResponseError :=
  ⟨by decide, by decide, by decide⟩

/-- C4 (amended): when the run produced no coverage artifact — the
results directory is missing or no report file is found — the analyzer
returns success with zero line, branch and summary rates and a per-line
list holding one uncovered entry per physical line of the reference
file. -/
theorem coverage_degrade (env : CoverageEnv)
    (hdir : env.playerTestsDirExists = true) (hbase : env.baseCodeExists = true)
    (hmiss : env.testResultsDirExists = false ∨ env.coverageXml = none) :
    (covResultOf (generateCoverageReport env)).map (fun r => r.success) = some true ∧
    (covResultOf (generateCoverageReport env)).map (fun r => r.lineRate) = some 0 ∧
    (covResultOf (generateCoverageReport env)).map (fun r => r.branchRate) = some 0 ∧
    (covResultOf (generateCoverageReport env)).map (fun r => r.coverageSummary) = some 0 ∧
    (covResultOf (generateCoverageReport env)).map (fun r => r.lineCoverage.length) =
      some (splitOnChar '\n' env.baseCode.data).length ∧
    (covResultOf (generateCoverageReport env)).map
      (fun r => r.lineCoverage.all (fun lc => !lc.covered)) = some true := by
  have hlen : (initLineCoverage env.baseCode).length =
      (splitOnChar '\n' env.baseCode.data).length := by
    simp [initLineCoverage]
  have hall : (initLineCoverage env.baseCode).all (fun lc => !lc.covered) = true := by
    simp only [initLineCoverage, List.all_eq_true]
    intro i hm
    obtain ⟨j, -, rfl⟩ := List.mem_map.mp hm
    rfl
  unfold generateCoverageReport
  rcases hmiss with hm | hm
  · simp [hdir, hbase, hm, covResultOf, hlen, hall]
  · rcases ht : env.testResultsDirExists
    · simp [hdir, hbase, ht, covResultOf, hlen, hall]
    · simp [hdir, hbase, ht, hm, covResultOf, hlen, hall]

/-- C4 (witness). -/
theorem coverage_degrade_witness :
    covEnvTwoLines.playerTestsDirExists = true ∧
    covEnvTwoLines.baseCodeExists = true ∧
    covEnvTwoLines.testResultsDirExists = false ∧
    ((covResultOf (generateCoverageReport covEnvTwoLines)).map (fun r => r.success) =
        some true ∧
     (covResultOf (generateCoverageReport covEnvTwoLines)).map (fun r => r.lineRate) =
        some 0 ∧
     (covResultOf (generateCoverageReport covEnvTwoLines)).map (fun r => r.branchRate) =
        some 0 ∧
     (covResultOf (generateCoverageReport covEnvTwoLines)).map (fun r => r.coverageSummary) =
        some 0 ∧
     (covResultOf (generateCoverageReport covEnvTwoLines)).map
        (fun r => r.lineCoverage.length) =
        some (splitOnChar '\n' covEnvTwoLines.baseCode.data).length ∧
     (covResultOf (generateCoverageReport covEnvTwoLines)).map
        (fun r => r.lineCoverage.all (fun lc => !lc.covered)) = some true) :=
  ⟨rfl, rfl, rfl, coverage_degrade covEnvTwoLines rfl rfl (Or.inl rfl)⟩

/-! ## C2: pipeline success and failure modes of the runner -/

/-- A test execution on which the hard timeout fired: the callback
receives an error object and empty output. -/
def runEnvTimeout : RunEnv :=
  { nowMs := 1764065304158, restoreOk := true, restoreErrMsg := "",
    buildCodeOk := true, buildCodeErrText := "", buildTestsOk := true,
    buildTestsErrText := "",
    testStdout := "", testStderr := "",
    testExecError := some ("Command failed: dotnet test, timed out after 20000ms"),
    trxContent := none, execMillis := 20000 }

/-- C2 (counterexample): a timed-out test execution does not constitute
pipeline failure — the runner still resolves with success true, contrary
to the claim that a timeout is a pipeline failure. -/
theorem runner_timeout_success_cex :
    runEnvTimeout.testExecError.isSome = true ∧
    (compileAndRunCSharpCode ("class C") ("t") ("p") tempRoot runEnvTimeout).success =
      true :=
  ⟨by decide, by decide⟩

/-- C2 (amended): the runner result is successful exactly when restore
and both compilations succeed; the parsed failed count and the execution
error (a timeout included) play no role in the outcome.  The second half
instantiates this at a run with two failing tests, which is reported as
a success. -/
theorem runner_success_criteria :
    (∀ code tests playerId tmp env,
      (compileAndRunCSharpCode code tests playerId tmp env).success = true ↔
        (env.restoreOk = true ∧ env.buildCodeOk = true ∧ env.buildTestsOk = true)) ∧
    ((compileAndRunCSharpCode ("class C") ("t") ("p") tempRoot
        { runEnvAllOk with testStdout := "Passed: 3\nFailed: 2\nTotal: 5" }).stats.failed =
        2 ∧
     (compileAndRunCSharpCode ("class C") ("t") ("p") tempRoot
        { runEnvAllOk with testStdout := "Passed: 3\nFailed: 2\nTotal: 5" }).success =
        true) := by
  refine ⟨?_, by decide, by decide⟩
  intro code tests playerId tmp env
  unfold compileAndRunCSharpCode
  rcases h1 : env.restoreOk
  · simp [failedRunResult, h1]
  · rcases h2 : env.buildCodeOk
    · simp [failedRunResult, h1, h2]
    · rcases h3 : env.buildTestsOk
      · simp [failedRunResult, h1, h2, h3]
      · simp [h1, h2, h3]

/-! ## C1: the stored composite score -/

/-- C1: on a successful pipeline run, the score stored on the player's
entry equals the weighted formula over the stored submetrics, with no
clamping: the closed conjuncts exhibit the documented 68.8 instance, a
negative composite and one above one hundred. -/
theorem composite_score_stored (db : DB) (env : PipelineEnv) (gameId playerId : Nat)
    (testCode : String) (g : GameDoc) (gp : GamePlayer) (covR : CoverageResult)
    (hg : findGame db gameId = some g)
    (hgp : g.players.find? (fun p => p.playerId == playerId) = some gp)
    (hcov : generateCoverageReport env.cov = CovOutcome.ok covR)
    (hsucc : (calculatePlayerData db env gameId playerId testCode).1.success = true) :
    ((storedPlayer (calculatePlayerData db env gameId playerId testCode).2 gameId
        playerId).map (fun p => p.totalScore)) =
      some (compositeScore (generateMutationReport env.mutation).summary.mutationScore
        covR.branchRate covR.coverageSummary
        ((calculateTestLines g.baseCode).totalTestLines : Rat)
        ((compileAndRunCSharpCode g.baseCode gp.submission.testCode
            (String.mk (natToDecimal playerId)) tempRoot env.run).executionTime.getD 0)) ∧
    compositeScore 80 90 85 20 2 = 68.8 ∧
    compositeScore 0 0 0 0 10 < 0 ∧
    compositeScore 100 100 100 500 0 > 100 := by
  refine ⟨?_, by decide, by decide, by decide⟩
  have hgid : (g.gameId == gameId) = true := by
    unfold findGame at hg
    simpa using List.find?_some hg
  have hpid : (gp.playerId == playerId) = true := by
    simpa using List.find?_some hgp
  rcases hpd : findPlayerDoc db playerId with _ | pd
  · simp [calculatePlayerData, hpd] at hsucc
  rcases hr : (compileAndRunCSharpCode g.baseCode gp.submission.testCode
      (String.mk (natToDecimal playerId)) tempRoot env.run).success
  · simp [calculatePlayerData, hpd, hg, hgp, hr] at hsucc
  rcases hcs : covR.success
  · simp [calculatePlayerData, hpd, hg, hgp, hcov, hr, hcs] at hsucc
  rcases hms : (generateMutationReport env.mutation).success
  · simp [calculatePlayerData, hpd, hg, hgp, hcov, hr, hcs, calculateTestLines, hms]
      at hsucc
  · simp only [calculatePlayerData, hpd, hg, hgp, hcov, hr, hcs, hms, calculateTestLines,
      Bool.not_true, Bool.false_eq_true, if_false, ite_false]
    rw [storedPlayer_saveGame hg hgid hgp (by simpa using hpid)]
    rfl

/-! ## Shared game scenario for the pipeline claims -/

/-- A player entry with a stored three-line submission. -/
def scenarioEntry : GamePlayer :=
  { playerId := 7, submission := { testCode := "a();\nb();\nc();" } }

/-- A playing game over a challenge whose reference code has exactly one
meaningful line. -/
def scenarioGame : GameDoc :=
  { gameId := 1, roomCode := "R1", baseCode := "int x = 1;\n// note\n",
    players := [scenarioEntry], gameState := "playing", startedAtMs := 1764065300000 }

def scenarioDb : DB :=
  { games := [scenarioGame], players := [{ playerId := 7 }], badges := [] }

def scenarioEnv : PipelineEnv :=
  { run := runEnvAllOk, cov := covEnvNoArtifact, mutation := mutEnvEmptyReport }

/-- The degraded coverage result for the three-line reference file. -/
def covRNoArtifact : CoverageResult :=
  { success := true,
    lineCoverage := [{ line := 1, covered := false, file := "BaseCode.cs" },
                     { line := 2, covered := false, file := "BaseCode.cs" },
                     { line := 3, covered := false, file := "BaseCode.cs" }],
    coverageSummary := 0, lineRate := 0, branchRate := 0 }

/-- C1 (witness). -/
theorem composite_score_stored_witness :
    (calculatePlayerData scenarioDb scenarioEnv 1 7 ("a();\nb();\nc();")).1.success =
      true ∧
    ((storedPlayer (calculatePlayerData scenarioDb scenarioEnv 1 7
        ("a();\nb();\nc();")).2 1 7).map (fun p => p.totalScore)) =
      some (compositeScore
        (generateMutationReport scenarioEnv.mutation).summary.mutationScore
        covRNoArtifact.branchRate covRNoArtifact.coverageSummary
        ((calculateTestLines scenarioGame.baseCode).totalTestLines : Rat)
        ((compileAndRunCSharpCode scenarioGame.baseCode
            scenarioEntry.submission.testCode (String.mk (natToDecimal 7)) tempRoot
            scenarioEnv.run).executionTime.getD 0)) :=
  ⟨by decide,
    (composite_score_stored scenarioDb scenarioEnv 1 7 ("a();\nb();\nc();")
      scenarioGame scenarioEntry covRNoArtifact (by decide) (by decide) (by decide)
      (by decide)).1⟩

/-! ## C3: the test-line count is taken from the wrong source -/

/-- C3: the pipeline scores a submission of three meaningful test lines
over a challenge whose reference code has one meaningful line, and the
stored testLines is 1 — the count of the challenge reference code — not
3, the count of the player's submitted test code: the line counter is
invoked on the base code. -/
theorem test_lines_counted_from_base_code :
    (calculatePlayerData scenarioDb scenarioEnv 1 7 ("a();\nb();\nc();")).1.success =
      true ∧
    ((storedPlayer (calculatePlayerData scenarioDb scenarioEnv 1 7
        ("a();\nb();\nc();")).2 1 7).map (fun p => p.testLines)) = some 1 ∧
    (calculateTestLines scenarioGame.baseCode).totalTestLines = 1 ∧
    (calculateTestLines ("a();\nb();\nc();")).totalTestLines = 3 ∧
    ((storedPlayer (calculatePlayerData scenarioDb scenarioEnv 1 7
        ("a();\nb();\nc();")).2 1 7).map (fun p => p.testLines)) ≠
      some (calculateTestLines ("a();\nb();\nc();")).totalTestLines :=
  ⟨by decide, by decide, by decide, by decide, by decide⟩

/-! ## C5: session state transition guards -/

/-- A pipeline environment failing at the restore stage, for scenarios
in which the pipeline outcome is irrelevant. -/
def failingPipelineEnv : PipelineEnv :=
  { run := { runEnvAllOk with restoreOk := false }, cov := covEnvNoArtifact,
    mutation := mutEnvEmptyReport }

/-- An already finished game session. -/
def finishedGameDoc : GameDoc :=
  { gameId := 1, roomCode := "R9", baseCode := "x", players := [scenarioEntry],
    gameState := "finished", startedAtMs := 0 }

def finishedDb : DB :=
  { games := [finishedGameDoc], players := [{ playerId := 7 }], badges := [] }

/-- C5 (counterexample): ending an already-finished game is not rejected
with an error result — the call reports success true, with the error
text only attached alongside. -/
theorem endgame_on_finished_success_cex :
    (endGame finishedDb (fun _ => failingPipelineEnv) 5000 1).1.success = true ∧
    (endGame finishedDb (fun _ => failingPipelineEnv) 5000 1).1.error =
      some ("Game already finished") :=
  ⟨by decide, by decide⟩

/-- C5 (amended): starting a game whose room is not waiting and
submitting to a game that is not playing are rejected with
success-false error results and no state change; ending an
already-finished game also leaves the state unchanged, but reports
success true with the error text only attached. -/
theorem session_transition_guards :
    (∀ db active env playerId pd room,
      findPlayerDoc db playerId = some pd → env.playerRoom = some room →
      room.gameState ≠ "waiting" →
      (startGame db active env playerId).1 =
        { success := false, error := some ("Game already started or finished") } ∧
      (startGame db active env playerId).2.1 = db) ∧
    (∀ db nowMs gameId playerId testCode g pd,
      findGame db gameId = some g → findPlayerDoc db playerId = some pd →
      g.gameState ≠ "playing" →
      (submitTestCode db nowMs gameId playerId testCode).1 =
        { success := false, error := some ("Game is not active") } ∧
      (submitTestCode db nowMs gameId playerId testCode).2 = db) ∧
    (∀ db envOf nowMs gameId g,
      findGame db gameId = some g → g.gameState = "finished" →
      (endGame db envOf nowMs gameId).1 =
        { success := true, error := some ("Game already finished") } ∧
      (endGame db envOf nowMs gameId).2.1 = db) := by
  refine ⟨?_, ?_, ?_⟩
  · intro db active env playerId pd room hpd hroom hstate
    constructor <;> simp [startGame, hpd, hroom, hstate]
  · intro db nowMs gameId playerId testCode g pd hgm hpd hstate
    constructor <;> simp [submitTestCode, hgm, hpd, hstate]
  · intro db envOf nowMs gameId g hgm hfin
    constructor <;> simp [endGame, hgm, hfin]

/-- A room already playing, for the start-game guard. -/
def busyRoom : RoomDoc :=
  { code := "RC", hostId := 7,
    players := [{ playerId := 7, isReady := true }, { playerId := 8, isReady := true }],
    gameState := "playing" }

def busyStartEnv : StartEnv :=
  { playerRoom := some busyRoom, challenge := none, newGameId := 2, nowMs := 0,
    roomUpdateOk := true }

/-- C5 (witness). -/
theorem session_transition_guards_witness :
    ((startGame finishedDb [] busyStartEnv 7).1 =
        { success := false, error := some ("Game already started or finished") } ∧
     (startGame finishedDb [] busyStartEnv 7).2.1 = finishedDb) ∧
    ((submitTestCode finishedDb 0 1 7 ("x();")).1 =
        { success := false, error := some ("Game is not active") } ∧
     (submitTestCode finishedDb 0 1 7 ("x();")).2 = finishedDb) ∧
    ((endGame finishedDb (fun _ => failingPipelineEnv) 5000 1).1 =
        { success := true, error := some ("Game already finished") } ∧
     (endGame finishedDb (fun _ => failingPipelineEnv) 5000 1).2.1 = finishedDb) :=
  ⟨session_transition_guards.1 finishedDb [] busyStartEnv 7 { playerId := 7 } busyRoom
      (by decide) (by decide) (by decide),
   session_transition_guards.2.1 finishedDb 0 1 7 ("x();") finishedGameDoc
      { playerId := 7 } (by decide) (by decide) (by decide),
   session_transition_guards.2.2 finishedDb (fun _ => failingPipelineEnv) 5000 1
      finishedGameDoc (by decide) (by decide)⟩

/-! ## C6: effects of a successful endGame -/

/-- A complete entry: nonzero mutation score and line rate, so the
auto-completion does not trigger. -/
def completeEntry : GamePlayer :=
  { playerId := 7, submission := { testCode := "t();" }, totalScore := 50,
    lineRate := 95,
    mutation := { score := 90, total := 10, killed := 9, survived := 1, timeout := 0,
                  noCoverage := 0, details := [] },
    executionTime := 0 }

def completeGame : GameDoc :=
  { gameId := 3, roomCode := "R3", baseCode := "b", players := [completeEntry],
    gameState := "playing", startedAtMs := 1000 }

def completeDb : DB :=
  { games := [completeGame],
    players := [{ playerId := 7, totalGamesPlayed := 4, bestScore := 20, badges := [55] }],
    badges := [("mutation_slayer", 101), ("coverage_gold", 102), ("first_place", 103)] }

/-- C6 (counterexample): a successful endGame marks the session finished
but never records the finish timestamp — the field stays absent.  The
winner is never recorded either. -/
theorem endgame_finishedAt_not_recorded_cex :
    (endGame completeDb (fun _ => failingPipelineEnv) 61000 3).1.success = true ∧
    (findGame (endGame completeDb (fun _ => failingPipelineEnv) 61000 3).2.1 3).map
      (fun x => x.gameState) = some ("finished") ∧
    (findGame (endGame completeDb (fun _ => failingPipelineEnv) 61000 3).2.1 3).map
      (fun x => x.finishedAtMs) = some none ∧
    (findGame (endGame completeDb (fun _ => failingPipelineEnv) 61000 3).2.1 3).map
      (fun x => x.winner) = some none :=
  ⟨by decide, by decide, by decide, by decide⟩

theorem findGame_foldl_updateStats (g : GameDoc) (l : List GamePlayer) (db : DB)
    (gameId : Nat) :
    findGame (l.foldl (fun d gp => updatePlayerStatsDoc d g gp) db) gameId =
      findGame db gameId := by
  unfold findGame
  rw [foldl_updateStats_games]

theorem findGame_saveGame {db : DB} {gameId : Nat} {g : GameDoc} {g2 : GameDoc}
    (hg : findGame db gameId = some g)
    (h2 : g2.gameId = g.gameId) :
    findGame (saveGame db g2) gameId = some g2 := by
  have hgid : (g.gameId == gameId) = true := by
    unfold findGame at hg
    simpa using List.find?_some hg
  have hge : g.gameId = gameId := by simpa using hgid
  unfold findGame at hg
  unfold findGame saveGame
  rw [find?_updateFirst _ (fun a => a.gameId == gameId) _ db.games g
    (fun a => by rw [h2, hge]) hg
    (by show (g2.gameId == gameId) = true; rw [h2, hge]; simp)]

/-- C6 (amended): for a session whose entries are all complete, a
successful endGame marks the state finished and records the total
duration in rounded seconds, while the finish timestamp and the winner
stay what they were; the closed conjuncts fold a concrete finished game
into a player's long-term profile: games played incremented, the game
score accumulated into the total and the average, the best score raised,
and the earned badges appended to the profile, with no win recorded
since no winner is ever set. -/
theorem endgame_finalization :
    (∀ (db : DB) (envOf : Nat → PipelineEnv) (nowMs gameId : Nat) (g : GameDoc),
      findGame db gameId = some g → g.gameState ≠ "finished" →
      (∀ gp ∈ g.players, autoCalcTrigger gp = false) →
      (endGame db envOf nowMs gameId).1.success = true ∧
      (findGame (endGame db envOf nowMs gameId).2.1 gameId).map
        (fun x => x.gameState) = some ("finished") ∧
      (findGame (endGame db envOf nowMs gameId).2.1 gameId).map
        (fun x => x.totalDuration) =
        some ((jsRound (((nowMs : Rat) - (g.startedAtMs : Rat)) / 1000) : Rat)) ∧
      (findGame (endGame db envOf nowMs gameId).2.1 gameId).map
        (fun x => x.finishedAtMs) = some g.finishedAtMs ∧
      (findGame (endGame db envOf nowMs gameId).2.1 gameId).map
        (fun x => x.winner) = some g.winner) ∧
    ((findPlayerDoc (endGame completeDb (fun _ => failingPipelineEnv) 61000 3).2.1 7).map
        (fun p => p.totalGamesPlayed) = some 5 ∧
     (findPlayerDoc (endGame completeDb (fun _ => failingPipelineEnv) 61000 3).2.1 7).map
        (fun p => p.totalScore) = some 50 ∧
     (findPlayerDoc (endGame completeDb (fun _ => failingPipelineEnv) 61000 3).2.1 7).map
        (fun p => p.averageScore) = some 10 ∧
     (findPlayerDoc (endGame completeDb (fun _ => failingPipelineEnv) 61000 3).2.1 7).map
        (fun p => p.bestScore) = some 50 ∧
     (findPlayerDoc (endGame completeDb (fun _ => failingPipelineEnv) 61000 3).2.1 7).map
        (fun p => p.badges) = some [55, 101, 102, 103] ∧
     (findPlayerDoc (endGame completeDb (fun _ => failingPipelineEnv) 61000 3).2.1 7).map
        (fun p => p.totalGamesWon) = some 0 ∧
     (findGame (endGame completeDb (fun _ => failingPipelineEnv) 61000 3).2.1 3).map
        (fun x => x.totalDuration) = some 60) := by
  constructor
  · intro db envOf nowMs gameId g hg hnf hidle
    have hbeq : (g.gameState == "finished") = false := by
      rcases hb : g.gameState == "finished"
      · rfl
      · exact absurd (eq_of_beq hb) hnf
    unfold endGame
    simp only [hg, hbeq, Bool.false_eq_true, if_false,
      foldl_autoCalc_no_trigger envOf gameId g.players db [] hidle]
    rw [findGame_foldl_updateStats, findGame_saveGame hg (by rfl)]
    refine ⟨?_, ?_, ?_, ?_, ?_⟩ <;> trivial
  · exact ⟨by decide, by decide, by decide, by decide, by decide, by decide, by decide⟩

/-- C6 (witness). -/
theorem endgame_finalization_witness :
    findGame completeDb 3 = some completeGame ∧
    (∀ gp ∈ completeGame.players, autoCalcTrigger gp = false) ∧
    ((endGame completeDb (fun _ => failingPipelineEnv) 61000 3).1.success = true ∧
     (findGame (endGame completeDb (fun _ => failingPipelineEnv) 61000 3).2.1 3).map
        (fun x => x.gameState) = some ("finished") ∧
     (findGame (endGame completeDb (fun _ => failingPipelineEnv) 61000 3).2.1 3).map
        (fun x => x.totalDuration) =
        some ((jsRound (((61000 : Rat) - (completeGame.startedAtMs : Rat)) / 1000) : Rat)) ∧
     (findGame (endGame completeDb (fun _ => failingPipelineEnv) 61000 3).2.1 3).map
        (fun x => x.finishedAtMs) = some completeGame.finishedAtMs ∧
     (findGame (endGame completeDb (fun _ => failingPipelineEnv) 61000 3).2.1 3).map
        (fun x => x.winner) = some completeGame.winner) :=
  ⟨by decide, by decide,
    endgame_finalization.1 completeDb (fun _ => failingPipelineEnv) 61000 3 completeGame
      (by decide) (by decide) (by decide)⟩

/-! ## C7: auto-completion precedes the finish -/

/-- C7: an entry holding a non-empty submission with a missing or zero
mutation score or line rate triggers an auto-completion pipeline call,
and on a successful endGame that call is recorded strictly before the
session is marked finished. -/
theorem autocalc_before_finish (db : DB) (envOf : Nat → PipelineEnv)
    (nowMs gameId : Nat) (g : GameDoc) (gp : GamePlayer)
    (hg : findGame db gameId = some g) (hnf : g.gameState ≠ "finished")
    (hmem : gp ∈ g.players) (hsub : gp.submission.testCode ≠ "")
    (hinc : gp.mutation.score = 0 ∨ gp.lineRate = 0)
    (hs : (endGame db envOf nowMs gameId).1.success = true) :
    (endGame db envOf nowMs gameId).2.2.getLast? = some EndEvent.markFinished ∧
    EndEvent.autoCalc gp.playerId ∈ (endGame db envOf nowMs gameId).2.2.dropLast := by
  have htr : autoCalcTrigger gp = true := by
    unfold autoCalcTrigger
    rcases hinc with h | h <;> simp [h, hsub]
  have hbeq : (g.gameState == "finished") = false := by
    rcases hb : g.gameState == "finished"
    · rfl
    · exact absurd (eq_of_beq hb) hnf
  unfold endGame at hs ⊢
  simp only [hg, hbeq, Bool.false_eq_true, if_false] at hs ⊢
  rcases hu : findGame (g.players.foldl (autoCalcStep envOf gameId) (db, [])).1 gameId
    with _ | u
  · simp only [hu] at hs
    simp at hs
  · simp only [hu] at hs ⊢
    constructor
    · simp [List.getLast?_concat]
    · simp only [List.dropLast_concat]
      exact foldl_autoCalc_mem envOf gameId g.players db [] gp hmem htr

/-- An incomplete entry with a stored submission. -/
def triggerEntry : GamePlayer :=
  { playerId := 7, submission := { testCode := "t();" } }

def triggerGame : GameDoc :=
  { gameId := 4, roomCode := "R4", baseCode := "b", players := [triggerEntry],
    gameState := "playing", startedAtMs := 0 }

def triggerDb : DB :=
  { games := [triggerGame], players := [{ playerId := 7 }], badges := [] }

/-- C7 (witness). -/
theorem autocalc_before_finish_witness :
    triggerEntry ∈ triggerGame.players ∧
    triggerEntry.submission.testCode ≠ "" ∧
    triggerEntry.mutation.score = 0 ∧
    (endGame triggerDb (fun _ => failingPipelineEnv) 9000 4).2.2.getLast? =
      some EndEvent.markFinished ∧
    EndEvent.autoCalc 7 ∈
      (endGame triggerDb (fun _ => failingPipelineEnv) 9000 4).2.2.dropLast := by
  have h := autocalc_before_finish triggerDb (fun _ => failingPipelineEnv) 9000 4
    triggerGame triggerEntry (by decide) (by decide) (by decide) (by decide)
    (Or.inl (by decide)) (by decide)
  exact ⟨by decide, by decide, by decide, h.1, h.2⟩

end TestRoyale
